import Mathlib

/-!
Shallow embedding of the Valorant statistics derivation engine
(`app/services/valorant_stats_processor.py` together with the data model in
`app/models/valorant.py`).

Python floats are modelled as exact rationals (`ℚ`); `round(x, 1)` and the
`:.0f` format specifier are modelled by round-half-to-even (`pyRound1`,
`pyRoundInt`), matching CPython behaviour away from binary-representation
corner cases; `int(x)` is truncation toward zero (`pyInt`).  Python dicts of
per-player statistics are modelled by their lookup functions: a key that the
Python dict would not contain maps to the default-initialised record.
-/

namespace ValorantEngine

/-- Round-half-to-even of a rational to an integer (CPython `round`/`:.0f`). -/
def pyRoundInt (q : ℚ) : ℤ :=
  if q - ⌊q⌋ < 1/2 then ⌊q⌋
  else if 1/2 < q - ⌊q⌋ then ⌊q⌋ + 1
  else if ⌊q⌋ % 2 = 0 then ⌊q⌋ else ⌊q⌋ + 1

/-- CPython `round(x, 1)`: round to one decimal place. -/
def pyRound1 (q : ℚ) : ℚ := (pyRoundInt (q * 10) : ℚ) / 10

/-- CPython `int(x)`: truncation toward zero. -/
def pyInt (q : ℚ) : ℤ := if 0 ≤ q then ⌊q⌋ else ⌈q⌉

/-- CPython `f"{x:.0f}"` on a float value. -/
def fmt0 (q : ℚ) : String := toString (pyRoundInt q)

/-- CPython `f"{x:.1f}"` on a float value. -/
def fmt1 (q : ℚ) : String :=
  let i := pyRoundInt (q * 10)
  toString (i / 10) ++ "." ++ toString (i.natAbs % 10)

/-- `ValorantPlayerState` (`app/models/valorant.py`), restricted to the fields
the statistics processor reads. -/
structure ValorantPlayerState where
  player_name : String
  agent : String
  team_side : String
  kills : ℤ
  deaths : ℤ
  assists : ℤ
  damage_dealt : ℤ
  headshots : ℤ
  loadout_value : ℤ
  alive : Bool
deriving Repr, DecidableEq

/-- `ValorantRound` (`app/models/valorant.py`), restricted to the fields the
statistics processor reads. -/
structure ValorantRound where
  round_number : ℤ
  attack_team : String
  winner : String
  first_blood : Option String
  first_blood_victim : Option String
  player_states : List ValorantPlayerState
deriving Repr, DecidableEq

/-- `ValorantMatch` (`app/models/valorant.py`), restricted to the fields the
statistics processor reads. -/
structure ValorantMatch where
  team_1 : String
  team_2 : String
  team_1_score : ℤ
  team_2_score : ℤ
  team_1_players : List ValorantPlayerState
  team_2_players : List ValorantPlayerState
  rounds : List ValorantRound
  total_rounds : ℤ
deriving Repr, DecidableEq

/-- `ValorantAgentStats` (`app/models/valorant.py`): default-initialised
per-player aggregate record. -/
structure ValorantAgentStats where
  kills : ℤ := 0
  deaths : ℤ := 0
  assists : ℤ := 0
  first_bloods : ℤ := 0
  first_deaths : ℤ := 0
  headshot_percent : ℚ := 0
  average_damage_per_round : ℚ := 0
deriving Repr, DecidableEq

/-- `KASTImpactStats` (`app/models/valorant.py`). -/
structure KASTImpactStats where
  player_name : String
  agent : String
  total_rounds : ℤ
  rounds_with_kast : ℤ
  rounds_without_kast : ℤ
  kast_percentage : ℚ
  loss_rate_without_kast : ℚ
  win_rate_with_kast : ℚ
  insight : String
deriving Repr, DecidableEq

/-- `EconomyStats` (`app/models/valorant.py`). -/
structure EconomyStats where
  team_name : String
  total_rounds : ℤ
  pistol_win_rate : ℚ
  force_buy_win_rate : ℚ
  eco_conversion_rate : ℚ
  bonus_loss_rate : ℚ
  full_buy_win_rate : ℚ
  insights : List String
deriving Repr, DecidableEq

/-! ## `_calculate_player_stats` -/

/-- The body of the `for p_state in round_data.player_states` loop of
`_calculate_player_stats`, specialised to the entry of the stats dict for
`name` (the dict is modelled by its lookup function): raw counters accumulate
and first bloods/deaths are identified from the round events. -/
def roundUpdate (name : String) (r : ValorantRound) (s : ValorantAgentStats)
    (p : ValorantPlayerState) : ValorantAgentStats :=
  if p.player_name = name then
    { s with
      kills := s.kills + p.kills
      deaths := s.deaths + p.deaths
      assists := s.assists + p.assists
      first_bloods := s.first_bloods + (if r.first_blood = some name then 1 else 0)
      first_deaths := s.first_deaths + (if r.first_blood_victim = some name then 1 else 0) }
  else s

/-- One round of the `for round_data in match.rounds` accumulation loop in
`_calculate_player_stats`. -/
def accStatsRound (name : String) (s : ValorantAgentStats) (r : ValorantRound) :
    ValorantAgentStats :=
  r.player_states.foldl (roundUpdate name r) s

/-- One assignment of the `else` (no round history) branch of
`_calculate_player_stats`: each player entry is assigned (not accumulated)
from the match totals; total damage and raw headshot counts are stashed in the
`average_damage_per_round` and `headshot_percent` fields, exactly as the
source does. -/
def fbAssign (name : String) (s : ValorantAgentStats) (p : ValorantPlayerState) :
    ValorantAgentStats :=
  if p.player_name = name then
    { s with
      kills := p.kills
      deaths := p.deaths
      assists := p.assists
      average_damage_per_round := (p.damage_dealt : ℚ)
      headshot_percent := (p.headshots : ℚ) }
  else s

/-- The fallback accumulation itself: a fold of `fbAssign` over the
concatenated team lists, starting from the default record. -/
def accStatsFallback (m : ValorantMatch) (name : String) : ValorantAgentStats :=
  (m.team_1_players ++ m.team_2_players).foldl (fbAssign name) {}

/-- The "Post-process averages" loop body of `_calculate_player_stats`:
ACS computation (with the `kills * 140` damage estimate when no damage was
recorded) and the real headshot percentage. -/
def finalizeStats (num_rounds : ℤ) (s : ValorantAgentStats) : ValorantAgentStats :=
  let total_damage0 := s.average_damage_per_round
  let raw_headshots := s.headshot_percent
  let total_damage := if total_damage0 = 0 then ((s.kills * 140 : ℤ) : ℚ) else total_damage0
  let combat_score := total_damage + ((s.kills * 150 : ℤ) : ℚ) + ((s.assists * 25 : ℤ) : ℚ)
  { s with
    average_damage_per_round := pyRound1 (combat_score / (num_rounds : ℚ))
    headshot_percent :=
      if 0 < s.kills then pyRound1 (raw_headshots / (s.kills : ℚ) * 100) else 0 }

/-- `_calculate_player_stats`, as the lookup function of the returned dict. -/
def calculate_player_stats (m : ValorantMatch) (name : String) : ValorantAgentStats :=
  let raw := if m.rounds ≠ [] then m.rounds.foldl (accStatsRound name) {}
             else accStatsFallback m name
  let num_rounds : ℤ := if 0 < m.total_rounds then m.total_rounds else 1
  finalizeStats num_rounds raw

/-! ## `calculate_kast` -/

/-- `_get_player_team`. -/
def get_player_team (m : ValorantMatch) (player_name : String) : String :=
  if m.team_1_players.any (fun p => p.player_name == player_name) then m.team_1 else m.team_2

/-- Counters of the `for round_data in match.rounds` loop of `calculate_kast`
(exact mode). -/
structure KastCounters where
  rounds_with_kast : ℤ := 0
  rounds_without_kast : ℤ := 0
  rounds_won_with_kast : ℤ := 0
  rounds_lost_without_kast : ℤ := 0
deriving Repr, DecidableEq

/-- One iteration of the exact-mode loop of `calculate_kast`. -/
def kastStep (player_name player_team : String) (c : KastCounters) (r : ValorantRound) :
    KastCounters :=
  match r.player_states.find? (fun p => p.player_name == player_name) with
  | none => c
  | some p_state =>
    let is_kast := 0 < p_state.kills ∨ 0 < p_state.assists ∨ p_state.alive = true
    if is_kast then
      { c with
        rounds_with_kast := c.rounds_with_kast + 1
        rounds_won_with_kast :=
          if r.winner = player_team then c.rounds_won_with_kast + 1
          else c.rounds_won_with_kast }
    else
      { c with
        rounds_without_kast := c.rounds_without_kast + 1
        rounds_lost_without_kast :=
          if r.winner ≠ player_team then c.rounds_lost_without_kast + 1
          else c.rounds_lost_without_kast }

/-- The three linear KDA bands of the fallback KAST estimator. -/
def kast_band (kda_ratio : ℚ) : ℚ :=
  if 2 < kda_ratio then 82 + (kda_ratio - 2) * 2
  else if 1 < kda_ratio then 70 + (kda_ratio - 1) * 12
  else 55 + kda_ratio * 15

/-- `estimated_kast_pct` of the fallback branch of `calculate_kast`:
the banded estimate clamped by `min(95.0, max(50.0, ·))`. -/
def estimated_kast_pct (kda_ratio : ℚ) : ℚ := min 95 (max 50 (kast_band kda_ratio))

/-- `calculate_kast`. -/
def calculate_kast (m : ValorantMatch) (player_name : String) : KASTImpactStats :=
  let total_rounds : ℤ := if m.rounds ≠ [] then (m.rounds.length : ℤ) else m.total_rounds
  let all_players := m.team_1_players ++ m.team_2_players
  let player_data := all_players.find? (fun p => p.player_name == player_name)
  if m.rounds = [] ∨ total_rounds = 0 then
    -- SMART FALLBACK
    let total_rounds : ℤ := if 0 < m.total_rounds then m.total_rounds else 23
    match player_data with
    | some pd =>
      let kills := pd.kills
      let deaths := pd.deaths
      let assists := pd.assists
      let kda_ratio : ℚ := ((kills + assists : ℤ) : ℚ) / ((max deaths 1 : ℤ) : ℚ)
      let est := estimated_kast_pct kda_ratio
      let rounds_with_kast := pyInt ((total_rounds : ℚ) * est / 100)
      let rounds_without_kast := total_rounds - rounds_with_kast
      let death_impact : ℚ :=
        min 95 (65 + ((deaths : ℚ) / ((max total_rounds 1 : ℤ) : ℚ)) * 100)
      let loss_rate_no_kast := pyRound1 death_impact
      let win_rate_with_kast : ℚ := min 90 (55 + kda_ratio * 10)
      { player_name := player_name
        agent := pd.agent
        total_rounds := total_rounds
        rounds_with_kast := rounds_with_kast
        rounds_without_kast := rounds_without_kast
        kast_percentage := pyRound1 est
        loss_rate_without_kast := loss_rate_no_kast
        win_rate_with_kast := pyRound1 win_rate_with_kast
        insight := "Team loses " ++ fmt0 loss_rate_no_kast ++ "% of rounds when "
          ++ player_name ++ " dies without KAST impact." }
    | none =>
      { player_name := player_name
        agent := "Unknown"
        total_rounds := total_rounds
        rounds_with_kast := pyInt ((total_rounds : ℚ) * (72/100 : ℚ))
        rounds_without_kast := pyInt ((total_rounds : ℚ) * (28/100 : ℚ))
        kast_percentage := 72
        loss_rate_without_kast := 78
        win_rate_with_kast := 65
        insight := "Team loses 78% of rounds when " ++ player_name
          ++ " dies without KAST impact." }
  else
    -- Original logic when rounds ARE available
    let player_team := get_player_team m player_name
    let c := m.rounds.foldl (kastStep player_name player_team) {}
    let kast_pct : ℚ :=
      if 0 < total_rounds then (c.rounds_with_kast : ℚ) / (total_rounds : ℚ) * 100 else 0
    let loss_rate_no_kast : ℚ :=
      if 0 < c.rounds_without_kast then
        (c.rounds_lost_without_kast : ℚ) / (c.rounds_without_kast : ℚ) * 100
      else 0
    let win_rate_with_kast : ℚ :=
      if 0 < c.rounds_with_kast then
        (c.rounds_won_with_kast : ℚ) / (c.rounds_with_kast : ℚ) * 100
      else 0
    let agent :=
      match m.rounds.getLast? with
      | some lastRound =>
        match lastRound.player_states.find? (fun p => p.player_name == player_name) with
        | some last_state => last_state.agent
        | none => "Unknown"
      | none => "Unknown"
    { player_name := player_name
      agent := agent
      total_rounds := total_rounds
      rounds_with_kast := c.rounds_with_kast
      rounds_without_kast := c.rounds_without_kast
      kast_percentage := pyRound1 kast_pct
      loss_rate_without_kast := pyRound1 loss_rate_no_kast
      win_rate_with_kast := pyRound1 win_rate_with_kast
      insight := "Team loses " ++ fmt1 loss_rate_no_kast ++ "% of rounds when "
        ++ player_name ++ " dies without impact." }

/-! ## `calculate_economy_stats` -/

/-- `_get_side_for_team`. -/
def get_side_for_team (round_data : ValorantRound) (team_name : String) : String :=
  if round_data.attack_team = team_name then "Attack" else "Defense"

/-- Fallback-mode effective round count:
`total_rounds = match.total_rounds if match.total_rounds > 0 else 23`. -/
def fb_total_rounds (m : ValorantMatch) : ℤ :=
  if 0 < m.total_rounds then m.total_rounds else 23

/-- Fallback-mode team score selection. -/
def fb_team_score (m : ValorantMatch) (team_name : String) : ℤ :=
  if team_name = m.team_1 then m.team_1_score else m.team_2_score

/-- Fallback-mode opponent score selection. -/
def fb_opp_score (m : ValorantMatch) (team_name : String) : ℤ :=
  if team_name = m.team_1 then m.team_2_score else m.team_1_score

/-- `win_rate = team_score / max(total_rounds, 1)` of the economy fallback. -/
def fb_win_rate (m : ValorantMatch) (team_name : String) : ℚ :=
  (fb_team_score m team_name : ℚ) / ((max (fb_total_rounds m) 1 : ℤ) : ℚ)

/-- Fallback pistol win rate, after the `max(0, min(100, ·))` clamp. -/
def fb_pistol_wr (m : ValorantMatch) (team_name : String) : ℚ :=
  max 0 (min 100
    (if fb_opp_score m team_name < fb_team_score m team_name
     then 50 + (fb_win_rate m team_name - 1/2) * 80
     else 20 + fb_win_rate m team_name * 50))

/-- Fallback force-buy win rate, after the `max(0, min(100, ·))` clamp. -/
def fb_force_wr (m : ValorantMatch) (team_name : String) : ℚ :=
  max 0 (min 100
    (if fb_opp_score m team_name < fb_team_score m team_name
     then 30 + (fb_win_rate m team_name - 2/5) * 50
     else 15 + fb_win_rate m team_name * 40))

/-- Fallback eco conversion rate, after the `max(0, min(50, ·))` clamp. -/
def fb_eco_conv (m : ValorantMatch) (team_name : String) : ℚ :=
  max 0 (min 50
    (if fb_opp_score m team_name < fb_team_score m team_name
     then 15 + (fb_win_rate m team_name - 2/5) * 40
     else 10 + fb_win_rate m team_name * 30))

/-- Fallback full-buy win rate, after the `max(30, min(90, ·))` clamp. -/
def fb_full_buy_wr (m : ValorantMatch) (team_name : String) : ℚ :=
  max 30 (min 90
    (if fb_opp_score m team_name < fb_team_score m team_name
     then 55 + (fb_win_rate m team_name - 1/2) * 60
     else 35 + fb_win_rate m team_name * 50))

/-- Fallback `bonus_loss = 30.0 + (1 - win_rate) * 40`; the source applies no
clamp to this quantity. -/
def fb_bonus_loss (m : ValorantMatch) (team_name : String) : ℚ :=
  30 + (1 - fb_win_rate m team_name) * 40

/-- `"Lost both pistol rounds - review pistol round strategies"`. -/
def pistol_weak_msg : String := "Lost both pistol rounds - review pistol round strategies"

/-- `f"Strong pistol performance ({pistol_wr:.0f}% WR)"`. -/
def pistol_strong_msg (q : ℚ) : String :=
  "Strong pistol performance (" ++ fmt0 q ++ "% WR)"

/-- `f"Effective force buys ({force_wr:.0f}% success)"`. -/
def force_buy_msg (q : ℚ) : String :=
  "Effective force buys (" ++ fmt0 q ++ "% success)"

/-- `f"Won force but lost bonus {bonus_loss:.0f}% of time - net negative pattern"`. -/
def snowball_insight (q : ℚ) : String :=
  "Won force but lost bonus " ++ fmt0 q ++ "% of time - net negative pattern"

/-- `f"Dangerous eco rounds ({eco_conv:.0f}% conversion) - can steal rounds"`. -/
def eco_steal_msg (q : ℚ) : String :=
  "Dangerous eco rounds (" ++ fmt0 q ++ "% conversion) - can steal rounds"

/-- `f"Strong Pistol Play ({pistol_wr:.0f}% WR)"` (exact mode). -/
def strong_pistol_play_msg (q : ℚ) : String :=
  "Strong Pistol Play (" ++ fmt0 q ++ "% WR)"

/-- `f"Dangerous on Eco Rounds ({eco_wr:.0f}% conv)"` (exact mode). -/
def eco_conv_msg (q : ℚ) : String :=
  "Dangerous on Eco Rounds (" ++ fmt0 q ++ "% conv)"

/-- Accumulator of the exact-mode loop of `calculate_economy_stats`.  The
source also initialises a `bonus_losses` counter and the bookkeeping flags
`prev_round_won` / `prev_round_eco`; `bonus_losses` is never incremented and
the two flags are written but never read. -/
structure EconAcc where
  pistol_wins : ℤ := 0
  eco_rounds : List ValorantRound := []
  eco_wins : ℤ := 0
  force_rounds : List ValorantRound := []
  force_wins : ℤ := 0
  full_buy_rounds : List ValorantRound := []
  full_buy_wins : ℤ := 0
  bonus_losses : ℤ := 0
  prev_round_won : Bool := false
  prev_round_eco : Bool := false
deriving Repr, DecidableEq

/-- One iteration of the `for r in match.rounds` loop of
`calculate_economy_stats`. -/
def econStep (team_name : String) (acc : EconAcc) (r : ValorantRound) : EconAcc :=
  let team_loadout : ℤ :=
    ((r.player_states.filter
        (fun p => p.team_side == get_side_for_team r team_name)).map
      (fun p => p.loadout_value)).sum
  let is_pistol := r.round_number = 1 ∨ r.round_number = 13
  let is_eco := team_loadout < 10000 ∧ ¬ is_pistol
  let is_force := (10000 ≤ team_loadout ∧ team_loadout < 19500) ∧ ¬ is_pistol
  let is_full := 19500 ≤ team_loadout
  let won_round := r.winner = team_name
  if is_pistol then
    { acc with
      pistol_wins := if won_round then acc.pistol_wins + 1 else acc.pistol_wins
      prev_round_won := decide won_round }
  else if is_eco then
    { acc with
      eco_rounds := acc.eco_rounds ++ [r]
      eco_wins := if won_round then acc.eco_wins + 1 else acc.eco_wins
      prev_round_eco := true
      prev_round_won := decide won_round }
  else if is_force then
    { acc with
      force_rounds := acc.force_rounds ++ [r]
      force_wins := if won_round then acc.force_wins + 1 else acc.force_wins
      prev_round_won := decide won_round }
  else if is_full then
    { acc with
      full_buy_rounds := acc.full_buy_rounds ++ [r]
      full_buy_wins := if won_round then acc.full_buy_wins + 1 else acc.full_buy_wins
      prev_round_won := decide won_round }
  else
    { acc with prev_round_won := decide won_round }

/-- `calculate_economy_stats`. -/
def calculate_economy_stats (m : ValorantMatch) (team_name : String) : EconomyStats :=
  let total_rounds : ℤ := if m.rounds ≠ [] then (m.rounds.length : ℤ) else m.total_rounds
  if m.rounds = [] ∨ total_rounds = 0 then
    -- SMART FALLBACK
    let total_rounds := fb_total_rounds m
    let pistol_wr := fb_pistol_wr m team_name
    let force_wr := fb_force_wr m team_name
    let eco_conv := fb_eco_conv m team_name
    let full_buy_wr := fb_full_buy_wr m team_name
    let bonus_loss := fb_bonus_loss m team_name
    let insights : List String :=
      (if pistol_wr < 50 then [pistol_weak_msg] else [])
      ++ (if 50 ≤ pistol_wr then [pistol_strong_msg pistol_wr] else [])
      ++ (if 40 < force_wr then
            [force_buy_msg force_wr]
            ++ (if 40 < bonus_loss then [snowball_insight bonus_loss] else [])
          else [])
      ++ (if 25 < eco_conv then [eco_steal_msg eco_conv] else [])
    { team_name := team_name
      total_rounds := total_rounds
      pistol_win_rate := pyRound1 pistol_wr
      force_buy_win_rate := pyRound1 force_wr
      eco_conversion_rate := pyRound1 eco_conv
      bonus_loss_rate := pyRound1 bonus_loss
      full_buy_win_rate := pyRound1 full_buy_wr
      insights := insights }
  else
    -- Original logic when rounds ARE available
    let acc := m.rounds.foldl (econStep team_name) {}
    let pistol_wr : ℚ :=
      if 13 ≤ total_rounds then (acc.pistol_wins : ℚ) / 2 * 100
      else (acc.pistol_wins : ℚ) / 1 * 100
    let eco_wr : ℚ :=
      if acc.eco_rounds ≠ [] then
        (acc.eco_wins : ℚ) / (acc.eco_rounds.length : ℚ) * 100
      else 0
    let force_wr : ℚ :=
      if acc.force_rounds ≠ [] then
        (acc.force_wins : ℚ) / (acc.force_rounds.length : ℚ) * 100
      else 0
    let full_buy_wr : ℚ :=
      if acc.full_buy_rounds ≠ [] then
        (acc.full_buy_wins : ℚ) / (acc.full_buy_rounds.length : ℚ) * 100
      else 0
    let insights : List String :=
      (if 50 < pistol_wr then [strong_pistol_play_msg pistol_wr] else [])
      ++ (if 30 < eco_wr then [eco_conv_msg eco_wr] else [])
    { team_name := team_name
      total_rounds := total_rounds
      pistol_win_rate := pyRound1 pistol_wr
      force_buy_win_rate := pyRound1 force_wr
      eco_conversion_rate := pyRound1 eco_wr
      bonus_loss_rate := 0
      full_buy_win_rate := pyRound1 full_buy_wr
      insights := insights }

/-! ## `process_match_stats` -/

/-- The output bundle of `process_match_stats`: the per-player stats dict
(modelled by its lookup function) and the result of
`_calculate_team_metrics`, which in the source is always the empty dict
(modelled by its key list). -/
structure MatchStatsBundle where
  player_stats : String → ValorantAgentStats
  team_metrics : List String

/-- `_calculate_team_metrics`: the source returns `{}`. -/
def calculate_team_metrics (_m : ValorantMatch) : List String := []

/-- `process_match_stats`. -/
def process_match_stats (m : ValorantMatch) : MatchStatsBundle :=
  { player_stats := calculate_player_stats m
    team_metrics := calculate_team_metrics m }

/-! ## Basic facts about the numeric helpers -/

lemma le_pyRoundInt {q : ℚ} {n : ℤ} (h : (n : ℚ) ≤ q) : n ≤ pyRoundInt q := by
  have hf : n ≤ ⌊q⌋ := Int.le_floor.mpr h
  simp only [pyRoundInt]
  split_ifs <;> omega

lemma pyRoundInt_le {q : ℚ} {n : ℤ} (h : q ≤ (n : ℚ)) : pyRoundInt q ≤ n := by
  have hf : ⌊q⌋ ≤ n := by
    have h1 : (⌊q⌋ : ℚ) ≤ (n : ℚ) := le_trans (Int.floor_le q) h
    exact_mod_cast h1
  have hstep : ¬(q - ⌊q⌋ < 1/2) → ⌊q⌋ + 1 ≤ n := by
    intro h1
    have h2 : (1 : ℚ)/2 ≤ q - ⌊q⌋ := not_lt.mp h1
    have h3 : (⌊q⌋ : ℚ) < (n : ℚ) := by linarith
    have h4 : ⌊q⌋ < n := by exact_mod_cast h3
    omega
  simp only [pyRoundInt]
  split_ifs with h1 h2 h3
  · exact hf
  · exact hstep h1
  · exact hf
  · exact hstep h1

lemma le_pyRound1 {q : ℚ} {a : ℤ} (h : (a : ℚ) ≤ q) : (a : ℚ) ≤ pyRound1 q := by
  have h10 : ((a * 10 : ℤ) : ℚ) ≤ q * 10 := by push_cast; linarith
  have := le_pyRoundInt h10
  have hc : ((a * 10 : ℤ) : ℚ) ≤ (pyRoundInt (q * 10) : ℚ) := by exact_mod_cast this
  simp only [pyRound1]
  rw [le_div_iff₀ (by norm_num : (0:ℚ) < 10)]
  push_cast at hc ⊢
  linarith

lemma pyRound1_le {q : ℚ} {a : ℤ} (h : q ≤ (a : ℚ)) : pyRound1 q ≤ (a : ℚ) := by
  have h10 : q * 10 ≤ ((a * 10 : ℤ) : ℚ) := by push_cast; linarith
  have := pyRoundInt_le h10
  have hc : (pyRoundInt (q * 10) : ℚ) ≤ ((a * 10 : ℤ) : ℚ) := by exact_mod_cast this
  simp only [pyRound1]
  rw [div_le_iff₀ (by norm_num : (0:ℚ) < 10)]
  push_cast at hc ⊢
  linarith

lemma max_pos_one (t : ℤ) : (if 0 < t then t else 1) = max t 1 := by
  split_ifs with h
  · exact (max_eq_left (by omega)).symm
  · exact (max_eq_right (by omega)).symm

/-! ## Concrete inputs used by counterexamples and witnesses -/

/-- A box-score-only match (no round history) with 23 recorded rounds and
empty rosters. -/
def noPlayersMatch : ValorantMatch :=
  { team_1 := "A", team_2 := "B", team_1_score := 0, team_2_score := 0
    team_1_players := [], team_2_players := [], rounds := [], total_rounds := 23 }

/-- An aggregate-only player: 0 kills, 5 deaths, 0 assists. -/
def bobState : ValorantPlayerState :=
  { player_name := "bob", agent := "Jett", team_side := "Attack"
    kills := 0, deaths := 5, assists := 0, damage_dealt := 0, headshots := 0
    loadout_value := 0, alive := true }

/-- A box-score-only match of 25 rounds whose roster holds `bobState`. -/
def bobMatch : ValorantMatch :=
  { team_1 := "A", team_2 := "B", team_1_score := 13, team_2_score := 12
    team_1_players := [bobState], team_2_players := [], rounds := []
    total_rounds := 25 }

/-- An aggregate-only player: 2 kills, 1 headshot, no damage recorded. -/
def carlState : ValorantPlayerState :=
  { player_name := "carl", agent := "Sova", team_side := "Attack"
    kills := 2, deaths := 0, assists := 0, damage_dealt := 0, headshots := 1
    loadout_value := 0, alive := true }

/-- A box-score-only match of 2 rounds whose roster holds `carlState`. -/
def carlMatch : ValorantMatch :=
  { team_1 := "A", team_2 := "B", team_1_score := 1, team_2_score := 1
    team_1_players := [carlState], team_2_players := [], rounds := []
    total_rounds := 2 }

/-- A box-score-only match whose recorded score (10) exceeds its recorded
round count (4): scores and round count are structurally consistent fields of
the input model, but nothing in the engine rejects this shape. -/
def blowoutMatch : ValorantMatch :=
  { team_1 := "A", team_2 := "B", team_1_score := 10, team_2_score := 0
    team_1_players := [], team_2_players := [], rounds := [], total_rounds := 4 }

/-- A box-score-only match lost 7-8 over 10 recorded rounds. -/
def loserMatch : ValorantMatch :=
  { team_1 := "A", team_2 := "B", team_1_score := 7, team_2_score := 8
    team_1_players := [], team_2_players := [], rounds := [], total_rounds := 10 }

/-- Round-history player state: TenZ, round 1 (2 kills, survived). -/
def mockP1 : ValorantPlayerState :=
  { player_name := "TenZ", agent := "Jett", team_side := "Attack"
    kills := 2, deaths := 0, assists := 0, damage_dealt := 0, headshots := 0
    loadout_value := 800, alive := true }

/-- Round-history player state: Less, round 1 (died). -/
def mockP3 : ValorantPlayerState :=
  { player_name := "Less", agent := "Viper", team_side := "Defense"
    kills := 0, deaths := 1, assists := 0, damage_dealt := 0, headshots := 0
    loadout_value := 800, alive := false }

/-- Round 1 of the round-history match (pistol round, Sentinels win). -/
def mockR1 : ValorantRound :=
  { round_number := 1, attack_team := "Sentinels", winner := "Sentinels"
    first_blood := none, first_blood_victim := none
    player_states := [mockP1, mockP3] }

/-- Round 2 of the round-history match (Sentinels full buy and win). -/
def mockR2 : ValorantRound :=
  { round_number := 2, attack_team := "Sentinels", winner := "Sentinels"
    first_blood := none, first_blood_victim := none
    player_states := [{ mockP1 with kills := 1, loadout_value := 3900 },
                      { mockP3 with loadout_value := 1200 }] }

/-- A 2-round match with full round history (mirrors the shape of the mock
match in `tests/verify_stats_processor.py`). -/
def mockMatch : ValorantMatch :=
  { team_1 := "Sentinels", team_2 := "Loud", team_1_score := 2, team_2_score := 0
    team_1_players := [mockP1], team_2_players := [mockP3]
    rounds := [mockR1, mockR2], total_rounds := 2 }

/-! ## C3: determinism of `process_match_stats` -/

/-- C3: `process_match_stats` is deterministic and idempotent — it is a pure
function of the input match (the shallow embedding is stateless and draws on
no randomness), so field-for-field identical inputs yield identical output
bundles. -/
theorem C3_process_match_stats_deterministic (m₁ m₂ : ValorantMatch)
    (h : m₁ = m₂) : process_match_stats m₁ = process_match_stats m₂ := by
  rw [h]

/-- C3 witness: the determinism theorem applied to a concrete match. -/
theorem C3_witness :
    process_match_stats mockMatch = process_match_stats mockMatch :=
  C3_process_match_stats_deterministic mockMatch mockMatch rfl

/-! ## C4: fallback loss-rate formula -/

/-- The fallback loss-rate formula exactly as claim C4 states it: the
death-frequency term scaled by the constant 0.3 before clamping to [65, 95]. -/
def spec_loss_rate_scaled (deaths total_rounds : ℤ) : ℚ :=
  min 95 (max 65 (65 + ((deaths : ℚ) / (total_rounds : ℚ)) * 100 * (3/10)))

/-- C4 counterexample: for the aggregate-only player bob (5 deaths over 25
rounds) the engine reports a loss rate of 85, while the formula of the claim
gives 71 — the code applies no 0.3 scaling factor. -/
theorem C4_counterexample :
    (calculate_kast bobMatch "bob").loss_rate_without_kast
      ≠ spec_loss_rate_scaled 5 25 := by
  norm_num [calculate_kast, bobMatch, bobState, spec_loss_rate_scaled,
    List.find?, estimated_kast_pct, kast_band, pyRound1, pyRoundInt, pyInt]

/-- C4 amended: in fallback mode, for every player with aggregate data, the
reported loss rate is `round1(min(95, 65 + (deaths / max(total_rounds, 1)) * 100))`
— the death-frequency term enters unscaled (there is no 0.3 factor), and 65 is
a lower bound automatically whenever deaths are non-negative rather than via
an explicit clamp. -/
theorem C4_amended (m : ValorantMatch) (name : String) (pd : ValorantPlayerState)
    (hrounds : m.rounds = [])
    (hfind : (m.team_1_players ++ m.team_2_players).find?
        (fun p => p.player_name == name) = some pd) :
    (calculate_kast m name).loss_rate_without_kast
      = pyRound1 (min 95
          (65 + ((pd.deaths : ℚ) / ((max (fb_total_rounds m) 1 : ℤ) : ℚ)) * 100)) := by
  simp [calculate_kast, hrounds, hfind, fb_total_rounds]

/-- C4 witness: the amended loss-rate law evaluated on `bobMatch`,
where it yields 85. -/
theorem C4_amended_witness :
    (calculate_kast bobMatch "bob").loss_rate_without_kast = 85 := by
  have h := C4_amended bobMatch "bob" bobState rfl
    (by norm_num [bobMatch, bobState, List.find?])
  rw [h]
  norm_num [bobMatch, bobState, fb_total_rounds, pyRound1, pyRoundInt]

/-! ## C5: headshot percentage -/

/-- The headshot-percentage formula exactly as claim C5 states it:
`headshots / max(kills * 4, 1) * 100`, rounded to 1 decimal. -/
def spec_headshot_pct (headshots kills : ℤ) : ℚ :=
  pyRound1 ((headshots : ℚ) / ((max (kills * 4) 1 : ℤ) : ℚ) * 100)

/-- C5 counterexample: for the aggregate-only player carl (2 kills,
1 headshot) the engine reports 50.0, while the formula of the claim gives
12.5 — the code divides by `kills`, not by `max(kills * 4, 1)`. -/
theorem C5_counterexample :
    (calculate_player_stats carlMatch "carl").headshot_percent
      ≠ spec_headshot_pct 1 2 := by
  norm_num [calculate_player_stats, carlMatch, carlState, accStatsFallback,
    fbAssign, finalizeStats, spec_headshot_pct, pyRound1, pyRoundInt]

lemma foldl_fbAssign_of_filter_nil (name : String) :
    ∀ (l : List ValorantPlayerState) (s : ValorantAgentStats),
      l.filter (fun p => p.player_name == name) = [] →
      l.foldl (fbAssign name) s = s := by
  intro l
  induction l with
  | nil => intro s _; rfl
  | cons p l ih =>
    intro s h
    rw [List.filter_cons] at h
    by_cases hp : p.player_name = name
    · simp [hp] at h
    · rw [if_neg (by simpa using hp)] at h
      rw [List.foldl_cons]
      simp only [fbAssign, if_neg hp]
      exact ih s h

lemma foldl_fbAssign_of_filter_single (name : String) (pd : ValorantPlayerState) :
    ∀ (l : List ValorantPlayerState) (s : ValorantAgentStats),
      l.filter (fun p => p.player_name == name) = [pd] →
      l.foldl (fbAssign name) s =
        { s with
          kills := pd.kills
          deaths := pd.deaths
          assists := pd.assists
          average_damage_per_round := (pd.damage_dealt : ℚ)
          headshot_percent := (pd.headshots : ℚ) } := by
  intro l
  induction l with
  | nil => intro s h; simp at h
  | cons p l ih =>
    intro s h
    rw [List.filter_cons] at h
    by_cases hp : p.player_name = name
    · rw [if_pos (by simpa using hp)] at h
      injection h with h1 h2
      subst h1
      rw [List.foldl_cons]
      simp only [fbAssign, if_pos hp]
      exact foldl_fbAssign_of_filter_nil name l _ h2
    · rw [if_neg (by simpa using hp)] at h
      rw [List.foldl_cons]
      simp only [fbAssign, if_neg hp]
      exact ih s h

/-- C5 amended: in fallback mode the engine reports
`headshot_percentage = round1(headshots / kills * 100)` for a player with
positive kills — the divisor is the raw kill count, with no 4-shots-per-kill
scaling; with zero kills it reports 0. -/
theorem C5_amended (m : ValorantMatch) (name : String) (pd : ValorantPlayerState)
    (hrounds : m.rounds = [])
    (hfilter : (m.team_1_players ++ m.team_2_players).filter
        (fun p => p.player_name == name) = [pd])
    (hkills : 0 < pd.kills) :
    (calculate_player_stats m name).headshot_percent
      = pyRound1 ((pd.headshots : ℚ) / (pd.kills : ℚ) * 100) := by
  have hacc := foldl_fbAssign_of_filter_single name pd
    (m.team_1_players ++ m.team_2_players) {} hfilter
  simp [calculate_player_stats, hrounds, accStatsFallback, hacc, finalizeStats, hkills]

/-- C5 witness: the amended headshot law evaluated on `carlMatch`,
where it yields 50. -/
theorem C5_amended_witness :
    (calculate_player_stats carlMatch "carl").headshot_percent = 50 := by
  have h := C5_amended carlMatch "carl" carlState rfl
    (by norm_num [carlMatch, carlState, List.filter]) (by norm_num [carlState])
  rw [h]
  norm_num [carlState, pyRound1, pyRoundInt]

/-! ## C9: exact-mode bonus loss rate is constantly zero -/

/-- C9: for every match with a non-empty rounds sequence (exact mode),
`calculate_economy_stats` returns `bonus_loss_rate = 0` regardless of round
categories and outcomes — the bonus-loss counter is initialised but never
incremented. -/
theorem C9_exact_bonus_loss_zero (m : ValorantMatch) (team : String)
    (h : m.rounds ≠ []) :
    (calculate_economy_stats m team).bonus_loss_rate = 0 := by
  simp [calculate_economy_stats, h, List.length_eq_zero]

/-- C9 witness: the 2-round mock match has rounds of differing categories and
still reports a zero bonus-loss rate. -/
theorem C9_witness : (calculate_economy_stats mockMatch "Sentinels").bonus_loss_rate = 0 :=
  C9_exact_bonus_loss_zero mockMatch "Sentinels" (by simp [mockMatch])

/-! ## C10: exact-mode ACS never uses recorded damage -/

lemma roundUpdate_adpr (name : String) (r : ValorantRound) (s : ValorantAgentStats)
    (p : ValorantPlayerState) :
    (roundUpdate name r s p).average_damage_per_round = s.average_damage_per_round := by
  simp only [roundUpdate]
  split_ifs <;> rfl

lemma foldl_roundUpdate_adpr (name : String) (r : ValorantRound) :
    ∀ (ps : List ValorantPlayerState) (s : ValorantAgentStats),
      (ps.foldl (roundUpdate name r) s).average_damage_per_round
        = s.average_damage_per_round := by
  intro ps
  induction ps with
  | nil => intro s; rfl
  | cons p ps ih => intro s; rw [List.foldl_cons, ih, roundUpdate_adpr]

lemma foldl_accStatsRound_adpr (name : String) :
    ∀ (rs : List ValorantRound) (s : ValorantAgentStats),
      (rs.foldl (accStatsRound name) s).average_damage_per_round
        = s.average_damage_per_round := by
  intro rs
  induction rs with
  | nil => intro s; rfl
  | cons r rs ih =>
    intro s
    rw [List.foldl_cons, ih, accStatsRound, foldl_roundUpdate_adpr]

/-- C10: for every match with a non-empty rounds sequence, per-round
`damage_dealt` values are never accumulated, so the reported ACS equals
`round1((kills*140 + kills*150 + assists*25) / max(total_rounds, 1))` — the
damage term is always the `kills * 140` estimate, whatever damage data the
round records carry. -/
theorem C10_acs_ignores_round_damage (m : ValorantMatch) (name : String)
    (h : m.rounds ≠ []) :
    (calculate_player_stats m name).average_damage_per_round
      = pyRound1 ((((m.rounds.foldl (accStatsRound name) {}).kills * 140
            + (m.rounds.foldl (accStatsRound name) {}).kills * 150
            + (m.rounds.foldl (accStatsRound name) {}).assists * 25 : ℤ) : ℚ)
          / ((max m.total_rounds 1 : ℤ) : ℚ)) := by
  have hadpr : (m.rounds.foldl (accStatsRound name) {}).average_damage_per_round = 0 :=
    foldl_accStatsRound_adpr name m.rounds {}
  simp only [calculate_player_stats, if_pos h, finalizeStats, hadpr, if_pos rfl,
    max_pos_one]
  congr 1
  push_cast
  ring

/-- C10 witness: on the 2-round mock match the ACS of TenZ (3 kills,
0 assists over 2 recorded rounds) is `(3*140 + 3*150) / 2 = 435`. -/
theorem C10_witness :
    (calculate_player_stats mockMatch "TenZ").average_damage_per_round = 435 := by
  have h := C10_acs_ignores_round_damage mockMatch "TenZ" (by simp [mockMatch])
  rw [h]
  norm_num +decide [mockMatch, mockR1, mockR2, mockP1, mockP3, accStatsRound,
    roundUpdate, pyRound1, pyRoundInt]

/-! ## C6: monotonicity of the fallback KAST estimator -/

/-- C6: `estimated_kast_pct` is monotonically non-decreasing in the KDA
ratio: for otherwise-identical fallback inputs, a strictly larger
`kda_ratio` never yields a smaller estimate, across all three linear bands
and after clamping to [50, 95]. -/
theorem C6_estimated_kast_monotone (a b : ℚ) (h : b < a) :
    estimated_kast_pct b ≤ estimated_kast_pct a := by
  have hband : kast_band b ≤ kast_band a := by
    simp only [kast_band]
    split_ifs <;> linarith
  simp only [estimated_kast_pct]
  exact min_le_min le_rfl (max_le_max le_rfl hband)

/-- C6 witness: the estimator compared at the concrete ratios 1 and 2. -/
theorem C6_witness : estimated_kast_pct 1 ≤ estimated_kast_pct 2 :=
  C6_estimated_kast_monotone 2 1 (by norm_num)

/-! ## C1: the KAST bookkeeping identity -/

/-- C1 counterexample: in fallback mode with no aggregate data for the
requested player (empty rosters), the defaults branch computes
`int(23 * 0.72) + int(23 * 0.28) = 16 + 6 = 22`, which differs from
`total_rounds = 23`. -/
theorem C1_counterexample :
    (calculate_kast noPlayersMatch "x").rounds_with_kast
        + (calculate_kast noPlayersMatch "x").rounds_without_kast
      ≠ (calculate_kast noPlayersMatch "x").total_rounds := by
  norm_num [calculate_kast, noPlayersMatch, pyInt]

lemma kastStep_sum (pn pt : String) (c : KastCounters) (r : ValorantRound) :
    (kastStep pn pt c r).rounds_with_kast + (kastStep pn pt c r).rounds_without_kast
      = c.rounds_with_kast + c.rounds_without_kast
        + (if (r.player_states.find? (fun p => p.player_name == pn)).isSome
           then 1 else 0) := by
  cases hf : r.player_states.find? (fun p => p.player_name == pn) with
  | none => simp [kastStep, hf]
  | some ps =>
    simp only [kastStep, hf]
    rw [if_pos (show (some ps).isSome = true from rfl)]
    split_ifs <;> simp <;> omega

lemma kast_fold_sum (pn pt : String) :
    ∀ (rs : List ValorantRound) (c : KastCounters),
      (rs.foldl (kastStep pn pt) c).rounds_with_kast
          + (rs.foldl (kastStep pn pt) c).rounds_without_kast
        = c.rounds_with_kast + c.rounds_without_kast
          + ((rs.filter (fun r => (r.player_states.find?
              (fun p => p.player_name == pn)).isSome)).length : ℤ) := by
  intro rs
  induction rs with
  | nil => intro c; simp
  | cons r rs ih =>
    intro c
    rw [List.foldl_cons, List.filter_cons]
    by_cases hf : (r.player_states.find? (fun p => p.player_name == pn)).isSome
    · rw [if_pos hf, ih (kastStep pn pt c r), kastStep_sum, if_pos hf,
        List.length_cons]
      push_cast
      ring
    · rw [if_neg hf, ih (kastStep pn pt c r), kastStep_sum, if_neg hf]
      ring

/-- C1 amended: `rounds_with_kast + rounds_without_kast = total_rounds` holds
in fallback mode whenever the player has aggregate data, and in exact mode
whenever the player appears in every round of the history; it fails only in
the no-data fallback branch, where the two counts are independently floored
fractions of `total_rounds` (see the counterexample). -/
theorem C1_amended (m : ValorantMatch) (name : String) :
    (m.rounds = [] →
      ((m.team_1_players ++ m.team_2_players).find?
          (fun p => p.player_name == name)).isSome →
      (calculate_kast m name).rounds_with_kast
          + (calculate_kast m name).rounds_without_kast
        = (calculate_kast m name).total_rounds)
    ∧ (m.rounds ≠ [] →
      (∀ r ∈ m.rounds, (r.player_states.find?
          (fun p => p.player_name == name)).isSome) →
      (calculate_kast m name).rounds_with_kast
          + (calculate_kast m name).rounds_without_kast
        = (calculate_kast m name).total_rounds) := by
  constructor
  · intro hrounds hsome
    obtain ⟨pd, hpd⟩ := Option.isSome_iff_exists.mp hsome
    simp only [calculate_kast, hrounds]
    simp [hpd]
  · intro hrounds hall
    have hfilter : m.rounds.filter (fun r => (r.player_states.find?
        (fun p => p.player_name == name)).isSome) = m.rounds :=
      List.filter_eq_self.mpr hall
    have hsum := kast_fold_sum name (get_player_team m name) m.rounds {}
    rw [hfilter] at hsum
    norm_num at hsum
    simp [calculate_kast, hrounds, List.length_eq_zero, hsum]

/-- C1 witness: the bookkeeping identity on `bobMatch` (fallback mode with a
rostered player). -/
theorem C1_amended_witness :
    (calculate_kast bobMatch "bob").rounds_with_kast
        + (calculate_kast bobMatch "bob").rounds_without_kast
      = (calculate_kast bobMatch "bob").total_rounds :=
  (C1_amended bobMatch "bob").1 rfl (by decide)

/-! ## C7: the engine never raises -/

/-- A rostered player used in the structurally invalid match below. -/
def patState : ValorantPlayerState :=
  { player_name := "pat", agent := "Omen", team_side := "Attack"
    kills := 1, deaths := 0, assists := 0, damage_dealt := 0, headshots := 0
    loadout_value := 3900, alive := true }

/-- A round won by team "Z", which is not one of the two declared teams. -/
def foreignRound : ValorantRound :=
  { round_number := 1, attack_team := "A", winner := "Z"
    first_blood := none, first_blood_victim := none
    player_states := [patState] }

/-- A match whose only round references the undeclared team "Z" as winner — a
structural violation per the specification. -/
def foreignWinnerMatch : ValorantMatch :=
  { team_1 := "A", team_2 := "B", team_1_score := 1, team_2_score := 0
    team_1_players := [patState], team_2_players := [], rounds := [foreignRound]
    total_rounds := 1 }

/-- A box-score-only match with a negative recorded round count — a structural
violation per the specification. -/
def negRoundsMatch : ValorantMatch :=
  { team_1 := "A", team_2 := "B", team_1_score := 0, team_2_score := 0
    team_1_players := [], team_2_players := [], rounds := [], total_rounds := -5 }

/-- C7 counterexample: the source defines no `InvalidMatchDataError` and
contains no raise statement, so its embedding is a total function; on a match
whose round is won by the undeclared team "Z" the engine returns a normal
statistic instead of raising — the foreign winner is silently counted as a
round the player team did not win. -/
theorem C7_counterexample :
    (calculate_kast foreignWinnerMatch "pat").kast_percentage = 100
      ∧ (calculate_kast foreignWinnerMatch "pat").win_rate_with_kast = 0 := by
  constructor <;>
    norm_num +decide [calculate_kast, foreignWinnerMatch, foreignRound, patState,
      get_player_team, kastStep, List.find?, pyRound1, pyRoundInt]

/-- C7 amended: the engine never raises; structural violations are silently
absorbed — a round winner absent from the declared teams is counted as a
round loss (see the counterexample), and a negative `total_rounds` is
replaced by the default 23 in the fallback KAST and economy paths. -/
theorem C7_amended (m : ValorantMatch) (name team : String)
    (hrounds : m.rounds = []) (hneg : m.total_rounds < 0) :
    (calculate_kast m name).total_rounds = 23
      ∧ (calculate_economy_stats m team).total_rounds = 23 := by
  have hpos : ¬ (0 < m.total_rounds) := by omega
  constructor
  · cases hfind : (m.team_1_players ++ m.team_2_players).find?
        (fun p => p.player_name == name) with
    | none => simp [calculate_kast, hrounds, hfind, hpos]
    | some pd => simp [calculate_kast, hrounds, hfind, hpos]
  · simp [calculate_economy_stats, hrounds, fb_total_rounds, hpos]

/-- C7 witness: the silent 23-round defaulting on a match recorded with
-5 total rounds. -/
theorem C7_amended_witness :
    (calculate_kast negRoundsMatch "x").total_rounds = 23
      ∧ (calculate_economy_stats negRoundsMatch "A").total_rounds = 23 :=
  C7_amended negRoundsMatch "x" "A" rfl (by norm_num [negRoundsMatch])

/-! ## C8: the snowball-pattern insight -/

lemma data_append (a b : String) : (a ++ b).data = a.data ++ b.data := rfl

lemma string_ne_of_head {s t : String} {c d : Char} (hc : s.data.head? = some c)
    (hd : t.data.head? = some d) (hne : c ≠ d) : s ≠ t := by
  intro h
  rw [h, hd] at hc
  exact hne (Option.some.inj hc).symm

lemma head_append3 (c : Char) (l : List Char) (s mid t : String)
    (h : s.data = c :: l) : ((s ++ mid) ++ t).data.head? = some c := by
  rw [data_append, data_append, h]
  rfl

lemma snowball_head (a : ℚ) : (snowball_insight a).data.head? = some 'W' :=
  head_append3 'W' ("on force but lost bonus ").data
    "Won force but lost bonus " (fmt0 a) "% of time - net negative pattern" rfl

lemma pistol_weak_head : pistol_weak_msg.data.head? = some 'L' := rfl

lemma pistol_strong_head (b : ℚ) : (pistol_strong_msg b).data.head? = some 'S' :=
  head_append3 'S' ("trong pistol performance (").data
    "Strong pistol performance (" (fmt0 b) "% WR)" rfl

lemma force_buy_head (b : ℚ) : (force_buy_msg b).data.head? = some 'E' :=
  head_append3 'E' ("ffective force buys (").data
    "Effective force buys (" (fmt0 b) "% success)" rfl

lemma eco_steal_head (b : ℚ) : (eco_steal_msg b).data.head? = some 'D' :=
  head_append3 'D' ("angerous eco rounds (").data
    "Dangerous eco rounds (" (fmt0 b) "% conversion) - can steal rounds" rfl

lemma strong_pistol_play_head (b : ℚ) :
    (strong_pistol_play_msg b).data.head? = some 'S' :=
  head_append3 'S' ("trong Pistol Play (").data
    "Strong Pistol Play (" (fmt0 b) "% WR)" rfl

lemma eco_conv_head (b : ℚ) : (eco_conv_msg b).data.head? = some 'D' :=
  head_append3 'D' ("angerous on Eco Rounds (").data
    "Dangerous on Eco Rounds (" (fmt0 b) "% conv)" rfl

lemma snowball_ne_pistol_weak (a : ℚ) : snowball_insight a ≠ pistol_weak_msg :=
  string_ne_of_head (snowball_head a) pistol_weak_head (by decide)

lemma snowball_ne_pistol_strong (a b : ℚ) : snowball_insight a ≠ pistol_strong_msg b :=
  string_ne_of_head (snowball_head a) (pistol_strong_head b) (by decide)

lemma snowball_ne_force_buy (a b : ℚ) : snowball_insight a ≠ force_buy_msg b :=
  string_ne_of_head (snowball_head a) (force_buy_head b) (by decide)

lemma snowball_ne_eco_steal (a b : ℚ) : snowball_insight a ≠ eco_steal_msg b :=
  string_ne_of_head (snowball_head a) (eco_steal_head b) (by decide)

lemma snowball_ne_strong_pistol_play (a b : ℚ) :
    snowball_insight a ≠ strong_pistol_play_msg b :=
  string_ne_of_head (snowball_head a) (strong_pistol_play_head b) (by decide)

lemma snowball_ne_eco_conv (a b : ℚ) : snowball_insight a ≠ eco_conv_msg b :=
  string_ne_of_head (snowball_head a) (eco_conv_head b) (by decide)

lemma snowball_not_mem_exact_insights (p e q : ℚ) :
    snowball_insight q ∉ ((if 50 < p then [strong_pistol_play_msg p] else [])
      ++ (if 30 < e then [eco_conv_msg e] else [])) := by
  intro hq
  rcases List.mem_append.mp hq with hq | hq
  · split at hq
    · exact absurd (List.mem_singleton.mp hq) (snowball_ne_strong_pistol_play q _)
    · simp at hq
  · split at hq
    · exact absurd (List.mem_singleton.mp hq) (snowball_ne_eco_conv q _)
    · simp at hq

/-- C8 counterexample: for the fallback match lost 7-8 over 10 rounds the
engine computes `force_buy_win_rate = 43` and `bonus_loss_rate = 42` and emits
the snowball-pattern insight, although both rates are below the thresholds
(≥ 60 and ≥ 50) that the claim states as exactly characterising the insight. -/
theorem C8_counterexample :
    snowball_insight 42 ∈ (calculate_economy_stats loserMatch "A").insights
      ∧ (calculate_economy_stats loserMatch "A").force_buy_win_rate < 60
      ∧ (calculate_economy_stats loserMatch "A").bonus_loss_rate < 50 := by
  refine ⟨?_, ?_, ?_⟩ <;>
    norm_num +decide [calculate_economy_stats, loserMatch, fb_pistol_wr, fb_force_wr,
      fb_eco_conv, fb_full_buy_wr, fb_bonus_loss, fb_win_rate, fb_team_score,
      fb_opp_score, fb_total_rounds, min_def, max_def, pyRound1, pyRoundInt]

/-- C8 amended: the snowball-pattern insight is produced only by the fallback
path, and there it is present exactly when the (unrounded) fallback rates
satisfy `force_buy_win_rate > 40` and `bonus_loss > 40` — not the claimed
thresholds 60 and 50; in exact mode (non-empty round history) no
snowball-pattern insight is ever emitted.  A team with
`force_buy_win_rate = 40` therefore still gets no snowball insight. -/
theorem C8_amended (m : ValorantMatch) (team : String) :
    (m.rounds = [] →
      ((∃ q, snowball_insight q ∈ (calculate_economy_stats m team).insights)
        ↔ (40 < fb_force_wr m team ∧ 40 < fb_bonus_loss m team)))
    ∧ (m.rounds ≠ [] →
      ∀ q, snowball_insight q ∉ (calculate_economy_stats m team).insights) := by
  constructor
  · intro hrounds
    have hins : (calculate_economy_stats m team).insights =
        (if fb_pistol_wr m team < 50 then [pistol_weak_msg] else [])
        ++ (if 50 ≤ fb_pistol_wr m team then [pistol_strong_msg (fb_pistol_wr m team)]
            else [])
        ++ (if 40 < fb_force_wr m team then
              [force_buy_msg (fb_force_wr m team)]
              ++ (if 40 < fb_bonus_loss m team then
                    [snowball_insight (fb_bonus_loss m team)] else [])
            else [])
        ++ (if 25 < fb_eco_conv m team then [eco_steal_msg (fb_eco_conv m team)]
            else []) := by
      simp only [calculate_economy_stats]
      rw [if_pos (Or.inl hrounds)]
    rw [hins]
    constructor
    · rintro ⟨q, hq⟩
      rcases List.mem_append.mp hq with hq | hq
      · rcases List.mem_append.mp hq with hq | hq
        · rcases List.mem_append.mp hq with hq | hq
          · split at hq
            · exact absurd (List.mem_singleton.mp hq) (snowball_ne_pistol_weak q)
            · simp at hq
          · split at hq
            · exact absurd (List.mem_singleton.mp hq) (snowball_ne_pistol_strong q _)
            · simp at hq
        · split at hq
          next hforce =>
            rcases List.mem_append.mp hq with hq | hq
            · exact absurd (List.mem_singleton.mp hq) (snowball_ne_force_buy q _)
            · split at hq
              next hbonus => exact ⟨hforce, hbonus⟩
              next => simp at hq
          next => simp at hq
      · split at hq
        · exact absurd (List.mem_singleton.mp hq) (snowball_ne_eco_steal q _)
        · simp at hq
    · rintro ⟨hforce, hbonus⟩
      refine ⟨fb_bonus_loss m team, ?_⟩
      apply List.mem_append_left
      apply List.mem_append_right
      rw [if_pos hforce, if_pos hbonus]
      simp
  · intro hrounds q
    have hcond : ¬(m.rounds = []
        ∨ (if m.rounds ≠ [] then (m.rounds.length : ℤ) else m.total_rounds) = 0) := by
      simp [hrounds, List.length_eq_zero]
    have hshape : ∃ p e, (calculate_economy_stats m team).insights =
        ((if 50 < p then [strong_pistol_play_msg p] else [])
          ++ (if 30 < e then [eco_conv_msg e] else [])) := by
      simp only [calculate_economy_stats]
      rw [if_neg hcond]
      exact ⟨_, _, rfl⟩
    obtain ⟨p, e, hpe⟩ := hshape
    rw [hpe]
    exact snowball_not_mem_exact_insights p e q

/-- C8 witness: on the concrete fallback match `loserMatch`, both
characterising conditions hold and (by the amended law) some snowball-pattern
insight is present. -/
theorem C8_amended_witness :
    ∃ q, snowball_insight q ∈ (calculate_economy_stats loserMatch "A").insights :=
  ((C8_amended loserMatch "A").1 rfl).mpr
    (by
      norm_num [loserMatch, fb_force_wr, fb_bonus_loss, fb_win_rate, fb_team_score,
        fb_opp_score, fb_total_rounds, min_def, max_def])

/-! ## C2: percentage bounds -/

/-- C2 counterexample: the fallback economy path never clamps `bonus_loss`;
on a match whose recorded score (10) exceeds its recorded round count (4),
`win_rate = 2.5` and `bonus_loss_rate = 30 + (1 - 2.5) * 40 = -30 < 0`. -/
theorem C2_counterexample :
    (calculate_economy_stats blowoutMatch "A").bonus_loss_rate < 0 := by
  norm_num +decide [calculate_economy_stats, blowoutMatch, fb_bonus_loss, fb_win_rate,
    fb_team_score, fb_opp_score, fb_total_rounds, pyRound1, pyRoundInt]

lemma pyRound1_mem {q : ℚ} (h0 : 0 ≤ q) (h1 : q ≤ 100) :
    0 ≤ pyRound1 q ∧ pyRound1 q ≤ 100 := by
  constructor
  · have h := le_pyRound1 (show ((0 : ℤ) : ℚ) ≤ q by push_cast; linarith)
    simpa using h
  · have h := pyRound1_le (show q ≤ ((100 : ℤ) : ℚ) by push_cast; linarith)
    simpa using h

lemma estimated_kast_pct_mem (k : ℚ) :
    50 ≤ estimated_kast_pct k ∧ estimated_kast_pct k ≤ 95 :=
  ⟨le_min (by norm_num) (le_max_left 50 _), min_le_left 95 _⟩

lemma rate_mem {a b : ℤ} (h0 : 0 ≤ a) (hab : a ≤ b) (hb : 0 < b) :
    0 ≤ (a : ℚ) / (b : ℚ) * 100 ∧ (a : ℚ) / (b : ℚ) * 100 ≤ 100 := by
  have hb' : (0 : ℚ) < (b : ℚ) := by exact_mod_cast hb
  constructor
  · exact mul_nonneg (div_nonneg (by exact_mod_cast h0) hb'.le) (by norm_num)
  · have h1 : (a : ℚ) / (b : ℚ) ≤ 1 := (div_le_one hb').mpr (by exact_mod_cast hab)
    nlinarith

/-- The invariant maintained by the exact-mode KAST loop: all four counters
are non-negative and each win/loss counter is bounded by its bucket size. -/
def KastInv (c : KastCounters) : Prop :=
  0 ≤ c.rounds_with_kast ∧ 0 ≤ c.rounds_without_kast
    ∧ 0 ≤ c.rounds_won_with_kast ∧ c.rounds_won_with_kast ≤ c.rounds_with_kast
    ∧ 0 ≤ c.rounds_lost_without_kast
    ∧ c.rounds_lost_without_kast ≤ c.rounds_without_kast

lemma kastStep_inv (pn pt : String) (c : KastCounters) (r : ValorantRound)
    (h : KastInv c) : KastInv (kastStep pn pt c r) := by
  cases hf : r.player_states.find? (fun p => p.player_name == pn) with
  | none => simpa [kastStep, hf] using h
  | some ps =>
    simp only [kastStep, hf, KastInv] at h ⊢
    split_ifs <;> simp <;> omega

lemma kast_fold_inv (pn pt : String) :
    ∀ (rs : List ValorantRound) (c : KastCounters), KastInv c →
      KastInv (rs.foldl (kastStep pn pt) c) := by
  intro rs
  induction rs with
  | nil => intro c h; exact h
  | cons r rs ih => intro c h; exact ih _ (kastStep_inv pn pt c r h)

/-- The invariant maintained by the exact-mode economy loop: each win counter
is non-negative and bounded by the size of its category (for pistol rounds,
by the running count `cap` of rounds numbered 1 or 13). -/
def EconInv (acc : EconAcc) (cap : ℤ) : Prop :=
  0 ≤ acc.pistol_wins ∧ acc.pistol_wins ≤ cap
    ∧ 0 ≤ acc.eco_wins ∧ acc.eco_wins ≤ (acc.eco_rounds.length : ℤ)
    ∧ 0 ≤ acc.force_wins ∧ acc.force_wins ≤ (acc.force_rounds.length : ℤ)
    ∧ 0 ≤ acc.full_buy_wins ∧ acc.full_buy_wins ≤ (acc.full_buy_rounds.length : ℤ)

lemma econStep_inv (team : String) (acc : EconAcc) (r : ValorantRound) (cap : ℤ)
    (h : EconInv acc cap) :
    EconInv (econStep team acc r)
      (cap + if r.round_number = 1 ∨ r.round_number = 13 then 1 else 0) := by
  simp only [econStep, EconInv] at h ⊢
  split_ifs <;> simp_all [List.length_append] <;> omega

lemma econ_fold_inv (team : String) :
    ∀ (rs : List ValorantRound) (acc : EconAcc) (cap : ℤ), EconInv acc cap →
      EconInv (rs.foldl (econStep team) acc)
        (cap + ((rs.filter (fun r =>
            decide (r.round_number = 1 ∨ r.round_number = 13))).length : ℤ)) := by
  intro rs
  induction rs with
  | nil => intro acc cap h; simpa using h
  | cons r rs ih =>
    intro acc cap h
    rw [List.foldl_cons, List.filter_cons]
    have hstep := econStep_inv team acc r cap h
    by_cases hp : r.round_number = 1 ∨ r.round_number = 13
    · rw [if_pos (by simpa using hp)]
      rw [if_pos hp] at hstep
      have h2 := ih (econStep team acc r) (cap + 1) hstep
      have he : cap + (((r :: rs.filter (fun r =>
            decide (r.round_number = 1 ∨ r.round_number = 13))).length : ℕ) : ℤ)
          = (cap + 1) + ((rs.filter (fun r =>
            decide (r.round_number = 1 ∨ r.round_number = 13))).length : ℤ) := by
        push_cast [List.length_cons]
        ring
      rw [he]
      exact h2
    · rw [if_neg (by simpa using hp)]
      rw [if_neg hp, add_zero] at hstep
      exact ih (econStep team acc r) cap hstep

lemma length_filter_round_number (P : ℤ → Prop) [DecidablePred P] :
    ∀ rs : List ValorantRound,
      (rs.filter (fun r => decide (P r.round_number))).length
        = ((rs.map (fun r => r.round_number)).filter (fun x => decide (P x))).length := by
  intro rs
  induction rs with
  | nil => rfl
  | cons r rs ih =>
    simp only [List.filter_cons, List.map_cons]
    by_cases h : P r.round_number
    · simp [h, ih]
    · simp [h, ih]

lemma filter_pistol_le_two {l : List ℤ} (hnd : l.Nodup) :
    (l.filter (fun x => decide (x = 1 ∨ x = 13))).length ≤ 2 := by
  have hsub : l.filter (fun x => decide (x = 1 ∨ x = 13)) ⊆ [1, 13] := by
    intro x hx
    have hpx := (List.mem_filter.mp hx).2
    simp only [decide_eq_true_eq] at hpx
    rcases hpx with h | h <;> simp [h]
  have := (List.subperm_of_subset (hnd.filter _) hsub).length_le
  simpa using this

lemma filter_pistol_le_one {l : List ℤ} (hnd : l.Nodup) (hub : ∀ x ∈ l, x < 13) :
    (l.filter (fun x => decide (x = 1 ∨ x = 13))).length ≤ 1 := by
  have hsub : l.filter (fun x => decide (x = 1 ∨ x = 13)) ⊆ [1] := by
    intro x hx
    have hmem := (List.mem_filter.mp hx).1
    have hpx := (List.mem_filter.mp hx).2
    simp only [decide_eq_true_eq] at hpx
    rcases hpx with h | h
    · simp [h]
    · exfalso
      have := hub x hmem
      omega
  have := (List.subperm_of_subset (hnd.filter _) hsub).length_le
  simpa using this

/-- Contiguous 1-based round numbering, as the data model requires of a valid
match. -/
def contiguousRounds (m : ValorantMatch) : Prop :=
  m.rounds.map (fun r => r.round_number)
    = List.map (fun k : ℕ => (k : ℤ)) (List.range' 1 m.rounds.length)

instance (m : ValorantMatch) : Decidable (contiguousRounds m) := by
  unfold contiguousRounds
  infer_instance

lemma contiguous_nodup {m : ValorantMatch} (h : contiguousRounds m) :
    (m.rounds.map (fun r => r.round_number)).Nodup := by
  rw [h]
  exact List.Nodup.map (fun a b hab => by exact_mod_cast hab) (List.nodup_range' 1 _)

lemma contiguous_bounds {m : ValorantMatch} (h : contiguousRounds m) :
    ∀ x ∈ m.rounds.map (fun r => r.round_number),
      1 ≤ x ∧ x ≤ (m.rounds.length : ℤ) := by
  rw [h]
  intro x hx
  simp only [List.mem_map, List.mem_range'_1] at hx
  obtain ⟨k, ⟨hk1, hk2⟩, rfl⟩ := hx
  constructor <;> omega

lemma pistol_count_le (m : ValorantMatch) (h : contiguousRounds m) :
    ((m.rounds.filter (fun r =>
        decide (r.round_number = 1 ∨ r.round_number = 13))).length : ℤ) ≤ 2
    ∧ ((m.rounds.length : ℤ) < 13 →
      ((m.rounds.filter (fun r =>
        decide (r.round_number = 1 ∨ r.round_number = 13))).length : ℤ) ≤ 1) := by
  have heq := length_filter_round_number (fun x => x = 1 ∨ x = 13) m.rounds
  constructor
  · have h2 := filter_pistol_le_two (contiguous_nodup h)
    rw [heq]
    exact_mod_cast h2
  · intro hlt
    have hub : ∀ x ∈ m.rounds.map (fun r => r.round_number), x < 13 := by
      intro x hx
      have := (contiguous_bounds h x hx).2
      omega
    have h1 := filter_pistol_le_one (contiguous_nodup h) hub
    rw [heq]
    exact_mod_cast h1

lemma rate_memN {a : ℤ} {n : ℕ} (h0 : 0 ≤ a) (hab : a ≤ (n : ℤ)) (hn : 0 < n) :
    0 ≤ (a : ℚ) / (n : ℚ) * 100 ∧ (a : ℚ) / (n : ℚ) * 100 ≤ 100 := by
  have hb' : (0 : ℚ) < (n : ℚ) := by exact_mod_cast hn
  constructor
  · exact mul_nonneg (div_nonneg (by exact_mod_cast h0) hb'.le) (by norm_num)
  · have h1 : (a : ℚ) / (n : ℚ) ≤ 1 := (div_le_one hb').mpr (by exact_mod_cast hab)
    nlinarith

lemma kast_bounds (m : ValorantMatch) (name : String)
    (hplayers : ∀ p ∈ m.team_1_players ++ m.team_2_players,
      0 ≤ p.kills ∧ 0 ≤ p.deaths ∧ 0 ≤ p.assists) :
    (0 ≤ (calculate_kast m name).kast_percentage
        ∧ (calculate_kast m name).kast_percentage ≤ 100)
      ∧ (0 ≤ (calculate_kast m name).loss_rate_without_kast
        ∧ (calculate_kast m name).loss_rate_without_kast ≤ 100)
      ∧ (0 ≤ (calculate_kast m name).win_rate_with_kast
        ∧ (calculate_kast m name).win_rate_with_kast ≤ 100) := by
  by_cases hrounds : m.rounds = []
  · cases hfind : (m.team_1_players ++ m.team_2_players).find?
        (fun p => p.player_name == name) with
    | none =>
      simp [calculate_kast, hrounds, hfind]
      norm_num
    | some pd =>
      obtain ⟨hk, hd, ha⟩ := hplayers pd (List.mem_of_find?_eq_some hfind)
      have hkq : (0 : ℚ) ≤ (pd.kills : ℚ) := by exact_mod_cast hk
      have hdq : (0 : ℚ) ≤ (pd.deaths : ℚ) := by exact_mod_cast hd
      have haq : (0 : ℚ) ≤ (pd.assists : ℚ) := by exact_mod_cast ha
      have hdpos : (0 : ℚ) < (pd.deaths : ℚ) ⊔ 1 :=
        lt_of_lt_of_le one_pos (le_max_right _ 1)
      have hkda : (0 : ℚ) ≤ ((pd.kills : ℚ) + (pd.assists : ℚ)) / ((pd.deaths : ℚ) ⊔ 1) :=
        div_nonneg (by linarith) hdpos.le
      have hTpos : (0 : ℚ) < (if 0 < m.total_rounds then (m.total_rounds : ℚ) else 23) ⊔ 1 :=
        lt_of_lt_of_le one_pos (le_max_right _ 1)
      have hX : (0 : ℚ) ≤ (pd.deaths : ℚ)
          / ((if 0 < m.total_rounds then (m.total_rounds : ℚ) else 23) ⊔ 1) * 100 :=
        mul_nonneg (div_nonneg hdq hTpos.le) (by norm_num)
      have hY : (0 : ℚ) ≤ ((pd.kills : ℚ) + (pd.assists : ℚ)) / ((pd.deaths : ℚ) ⊔ 1) * 10 :=
        mul_nonneg hkda (by norm_num)
      obtain ⟨h50, h95⟩ := estimated_kast_pct_mem
        (((pd.kills : ℚ) + (pd.assists : ℚ)) / ((pd.deaths : ℚ) ⊔ 1))
      simp [calculate_kast, hrounds, hfind]
      refine ⟨pyRound1_mem (by linarith) (by linarith),
        pyRound1_mem (le_min (by norm_num) (by linarith))
          (le_trans (min_le_left _ _) (by norm_num)),
        pyRound1_mem (le_min (by norm_num) (by linarith))
          (le_trans (min_le_left _ _) (by norm_num))⟩
  · have hinv := kast_fold_inv name (get_player_team m name) m.rounds {}
      (by simp [KastInv])
    have hsum := kast_fold_sum name (get_player_team m name) m.rounds {}
    have hflen := List.length_filter_le
      (fun r => (r.player_states.find? (fun p => p.player_name == name)).isSome) m.rounds
    obtain ⟨h1, h2, h3, h4, h5, h6⟩ := hinv
    norm_num at hsum
    have hlenpos : 0 < m.rounds.length := List.length_pos.mpr hrounds
    simp [calculate_kast, hrounds]
    refine ⟨pyRound1_mem ?_ ?_, pyRound1_mem ?_ ?_, pyRound1_mem ?_ ?_⟩ <;>
      split_ifs <;>
      first
        | exact (rate_memN h1 (by omega) hlenpos).1
        | exact (rate_memN h1 (by omega) hlenpos).2
        | exact (rate_mem h5 h6 (by omega)).1
        | exact (rate_mem h5 h6 (by omega)).2
        | exact (rate_mem h3 h4 (by omega)).1
        | exact (rate_mem h3 h4 (by omega)).2
        | norm_num

lemma fb_total_rounds_pos (m : ValorantMatch) : 1 ≤ fb_total_rounds m := by
  unfold fb_total_rounds
  split_ifs <;> omega

lemma fb_pistol_wr_mem (m : ValorantMatch) (team : String) :
    0 ≤ fb_pistol_wr m team ∧ fb_pistol_wr m team ≤ 100 :=
  ⟨le_max_left 0 _, max_le (by norm_num) (min_le_left 100 _)⟩

lemma fb_force_wr_mem (m : ValorantMatch) (team : String) :
    0 ≤ fb_force_wr m team ∧ fb_force_wr m team ≤ 100 :=
  ⟨le_max_left 0 _, max_le (by norm_num) (min_le_left 100 _)⟩

lemma fb_eco_conv_mem (m : ValorantMatch) (team : String) :
    0 ≤ fb_eco_conv m team ∧ fb_eco_conv m team ≤ 100 :=
  ⟨le_max_left 0 _, le_trans (max_le (by norm_num) (min_le_left 50 _)) (by norm_num)⟩

lemma fb_full_buy_wr_mem (m : ValorantMatch) (team : String) :
    0 ≤ fb_full_buy_wr m team ∧ fb_full_buy_wr m team ≤ 100 :=
  ⟨le_trans (by norm_num) (le_max_left 30 _),
   max_le (by norm_num) (le_trans (min_le_left 90 _) (by norm_num))⟩

lemma fb_win_rate_mem (m : ValorantMatch) (team : String)
    (hs1 : 0 ≤ m.team_1_score) (hs2 : 0 ≤ m.team_2_score)
    (hb1 : m.team_1_score ≤ fb_total_rounds m)
    (hb2 : m.team_2_score ≤ fb_total_rounds m) :
    0 ≤ fb_win_rate m team ∧ fb_win_rate m team ≤ 1 := by
  have hn := fb_total_rounds_pos m
  have hmax : max (fb_total_rounds m) 1 = fb_total_rounds m := max_eq_left hn
  have hpos : (0 : ℚ) < ((fb_total_rounds m : ℤ) : ℚ) := by
    have h0 : (0 : ℤ) < fb_total_rounds m := by omega
    exact_mod_cast h0
  unfold fb_win_rate
  rw [hmax]
  unfold fb_team_score
  split_ifs with h
  · exact ⟨div_nonneg (by exact_mod_cast hs1) hpos.le,
      (div_le_one hpos).mpr (by exact_mod_cast hb1)⟩
  · exact ⟨div_nonneg (by exact_mod_cast hs2) hpos.le,
      (div_le_one hpos).mpr (by exact_mod_cast hb2)⟩

lemma fb_bonus_loss_mem (m : ValorantMatch) (team : String)
    (hs1 : 0 ≤ m.team_1_score) (hs2 : 0 ≤ m.team_2_score)
    (hb1 : m.team_1_score ≤ fb_total_rounds m)
    (hb2 : m.team_2_score ≤ fb_total_rounds m) :
    0 ≤ fb_bonus_loss m team ∧ fb_bonus_loss m team ≤ 100 := by
  obtain ⟨h0, h1⟩ := fb_win_rate_mem m team hs1 hs2 hb1 hb2
  unfold fb_bonus_loss
  constructor <;> linarith

lemma econ_bounds (m : ValorantMatch) (team : String)
    (hnum : contiguousRounds m)
    (hs1 : 0 ≤ m.team_1_score) (hs2 : 0 ≤ m.team_2_score)
    (hb1 : m.team_1_score ≤ fb_total_rounds m)
    (hb2 : m.team_2_score ≤ fb_total_rounds m) :
    (0 ≤ (calculate_economy_stats m team).pistol_win_rate
        ∧ (calculate_economy_stats m team).pistol_win_rate ≤ 100)
      ∧ (0 ≤ (calculate_economy_stats m team).force_buy_win_rate
        ∧ (calculate_economy_stats m team).force_buy_win_rate ≤ 100)
      ∧ (0 ≤ (calculate_economy_stats m team).eco_conversion_rate
        ∧ (calculate_economy_stats m team).eco_conversion_rate ≤ 100)
      ∧ (0 ≤ (calculate_economy_stats m team).bonus_loss_rate
        ∧ (calculate_economy_stats m team).bonus_loss_rate ≤ 100)
      ∧ (0 ≤ (calculate_economy_stats m team).full_buy_win_rate
        ∧ (calculate_economy_stats m team).full_buy_win_rate ≤ 100) := by
  by_cases hrounds : m.rounds = []
  · obtain ⟨hp0, hp1⟩ := fb_pistol_wr_mem m team
    obtain ⟨hf0, hf1⟩ := fb_force_wr_mem m team
    obtain ⟨he0, he1⟩ := fb_eco_conv_mem m team
    obtain ⟨hfb0, hfb1⟩ := fb_full_buy_wr_mem m team
    obtain ⟨hbl0, hbl1⟩ := fb_bonus_loss_mem m team hs1 hs2 hb1 hb2
    simp [calculate_economy_stats, hrounds]
    exact ⟨pyRound1_mem hp0 hp1, pyRound1_mem hf0 hf1, pyRound1_mem he0 he1,
      pyRound1_mem hbl0 hbl1, pyRound1_mem hfb0 hfb1⟩
  · obtain ⟨e1, e2, e3, e4, e5, e6, e7, e8⟩ :=
      econ_fold_inv team m.rounds {} 0 (by simp [EconInv])
    obtain ⟨hc2, hc1⟩ := pistol_count_le m hnum
    simp [calculate_economy_stats, hrounds]
    generalize hacc : List.foldl (econStep team) ({} : EconAcc) m.rounds = acc
    rw [hacc] at e1 e2 e3 e4 e5 e6 e7 e8
    have hpw0 : (0 : ℚ) ≤ (acc.pistol_wins : ℚ) := by exact_mod_cast e1
    refine ⟨?_, ?_, ?_, ?_⟩
    · apply pyRound1_mem <;> split_ifs with h13
      · exact mul_nonneg (div_nonneg hpw0 (by norm_num)) (by norm_num)
      · exact mul_nonneg hpw0 (by norm_num)
      · have hle : (acc.pistol_wins : ℚ) ≤ 2 := by
          have h : acc.pistol_wins ≤ 2 := by omega
          exact_mod_cast h
        linarith
      · have hlt : (m.rounds.length : ℤ) < 13 := by omega
        have hle : (acc.pistol_wins : ℚ) ≤ 1 := by
          have h := hc1 hlt
          have h2 : acc.pistol_wins ≤ 1 := by omega
          exact_mod_cast h2
        linarith
    · apply pyRound1_mem <;> split_ifs with hne
      · norm_num
      · exact (rate_memN e5 e6 (List.length_pos.mpr hne)).1
      · norm_num
      · exact (rate_memN e5 e6 (List.length_pos.mpr hne)).2
    · apply pyRound1_mem <;> split_ifs with hne
      · norm_num
      · exact (rate_memN e3 e4 (List.length_pos.mpr hne)).1
      · norm_num
      · exact (rate_memN e3 e4 (List.length_pos.mpr hne)).2
    · apply pyRound1_mem <;> split_ifs with hne
      · norm_num
      · exact (rate_memN e7 e8 (List.length_pos.mpr hne)).1
      · norm_num
      · exact (rate_memN e7 e8 (List.length_pos.mpr hne)).2

/-- C2 amended: all three KAST percentage fields and all five economy rate
fields lie in [0, 100], provided the input is a valid match (non-negative
player counters and contiguous 1-based round numbering) whose recorded team
scores do not exceed the effective round count.  The score bound is the
amendment the counterexample forces: the fallback `bonus_loss` is never
clamped by the source, so a score above 1.75 times the round count drives
`bonus_loss_rate` negative. -/
theorem C2_amended (m : ValorantMatch) (name team : String)
    (hplayers : ∀ p ∈ m.team_1_players ++ m.team_2_players,
      0 ≤ p.kills ∧ 0 ≤ p.deaths ∧ 0 ≤ p.assists)
    (hnum : contiguousRounds m)
    (hs1 : 0 ≤ m.team_1_score) (hs2 : 0 ≤ m.team_2_score)
    (hb1 : m.team_1_score ≤ fb_total_rounds m)
    (hb2 : m.team_2_score ≤ fb_total_rounds m) :
    ((0 ≤ (calculate_kast m name).kast_percentage
        ∧ (calculate_kast m name).kast_percentage ≤ 100)
      ∧ (0 ≤ (calculate_kast m name).loss_rate_without_kast
        ∧ (calculate_kast m name).loss_rate_without_kast ≤ 100)
      ∧ (0 ≤ (calculate_kast m name).win_rate_with_kast
        ∧ (calculate_kast m name).win_rate_with_kast ≤ 100))
    ∧ ((0 ≤ (calculate_economy_stats m team).pistol_win_rate
        ∧ (calculate_economy_stats m team).pistol_win_rate ≤ 100)
      ∧ (0 ≤ (calculate_economy_stats m team).force_buy_win_rate
        ∧ (calculate_economy_stats m team).force_buy_win_rate ≤ 100)
      ∧ (0 ≤ (calculate_economy_stats m team).eco_conversion_rate
        ∧ (calculate_economy_stats m team).eco_conversion_rate ≤ 100)
      ∧ (0 ≤ (calculate_economy_stats m team).bonus_loss_rate
        ∧ (calculate_economy_stats m team).bonus_loss_rate ≤ 100)
      ∧ (0 ≤ (calculate_economy_stats m team).full_buy_win_rate
        ∧ (calculate_economy_stats m team).full_buy_win_rate ≤ 100)) :=
  ⟨kast_bounds m name hplayers, econ_bounds m team hnum hs1 hs2 hb1 hb2⟩

/-- C2 witness: selected bounds of the amended law evaluated on the concrete
round-history match `mockMatch`. -/
theorem C2_amended_witness :
    0 ≤ (calculate_kast mockMatch "TenZ").kast_percentage
      ∧ (calculate_kast mockMatch "TenZ").kast_percentage ≤ 100
      ∧ 0 ≤ (calculate_economy_stats mockMatch "Sentinels").pistol_win_rate
      ∧ (calculate_economy_stats mockMatch "Sentinels").pistol_win_rate ≤ 100 := by
  have h := C2_amended mockMatch "TenZ" "Sentinels" (by decide) (by decide)
    (by decide) (by decide) (by decide) (by decide)
  exact ⟨h.1.1.1, h.1.1.2, h.2.1.1, h.2.1.2⟩

end ValorantEngine
